import Mathlib

/-!
Verification of the DataSource admin API
(`src/backend/app/api/admin_routes/data_source.py`).

The module is embedded shallowly: the ORM store is an explicit record of
rows, each HTTP handler is a function threading a session state, and the
background-task dispatch and the transactional commit are recorded as
events so that their relative order can be reasoned about.
-/

namespace DataSourceAdmin

/-- Modelled from the spec: `data_source_type` is an enumerated variant
(e.g. file-upload / web-crawl / cloud-storage); the enumeration itself is
declared in `app.models`, outside this excerpt. -/
inductive DataSourceType where
  | file_upload
  | web_crawl
  | cloud_storage
deriving DecidableEq, Repr

/-- Modelled from the spec: the `config` payload is "object or ordered
list"; its concrete shape is irrelevant to the handlers, which treat it as
an opaque value. -/
inductive Config where
  | obj : List (String × String) → Config
  | arr : List String → Config
deriving DecidableEq, Repr

/-- Modelled from the spec (§3): fields of the `DataSource` row used by
the handlers. Timestamps are modelled as naturals. -/
structure DataSource where
  id : Nat
  name : String
  description : String
  data_source_type : DataSourceType
  config : Config
  build_kg_index : Bool
  user_id : Nat
  created_at : Nat
deriving DecidableEq, Repr

/-- Modelled from the spec (§3): a `Document` belongs to one DataSource
and carries an `index_status` drawn from a fixed enumeration, modelled as
a natural number in its enumeration order. -/
structure Document where
  id : Nat
  data_source_id : Nat
  index_status : Nat
deriving DecidableEq, Repr

/-- Modelled from the spec (§3): a `Chunk` belongs to one Document (no
direct data-source reference) and has its own `index_status`. -/
structure Chunk where
  id : Nat
  document_id : Nat
  index_status : Nat
deriving DecidableEq, Repr

/-- Modelled from the spec: the current user resolved by the
`CurrentSuperuserDep` dependency. -/
structure User where
  id : Nat
  is_superuser : Bool
deriving DecidableEq, Repr

/-- The relational store visible to the handlers. -/
structure Store where
  data_sources : List DataSource
  documents : List Document
  chunks : List Chunk
deriving DecidableEq, Repr

/-- Observable side effects of a handler: a transactional commit (with the
ids of the rows it flushed) and a background-task dispatch (job name and
the data source id it carries). -/
inductive Event where
  | commit : List Nat → Event
  | dispatch : String → Nat → Event
deriving DecidableEq, Repr

/-- Recognises a dispatch event. -/
def Event.isDispatch : Event → Bool
  | Event.dispatch _ _ => true
  | _ => false

/-- One request's session: the store, rows staged by `session.add` but not
yet committed, and the event trace of the request. -/
structure SessionState where
  store : Store
  pending : List DataSource
  events : List Event
deriving DecidableEq, Repr

/-- `session.get(DataSource, data_source_id)`: primary-key lookup. -/
def findDataSource (store : Store) (data_source_id : Nat) : Option DataSource :=
  store.data_sources.find? (fun ds => ds.id == data_source_id)

/-- `session.add(data_source)`: stage a row. -/
def sessionAdd (ds : DataSource) (st : SessionState) : SessionState :=
  { st with pending := st.pending ++ [ds] }

/-- `session.commit()`: flush staged rows into the store and record the
commit event. -/
def sessionCommit (st : SessionState) : SessionState :=
  { store := { st.store with data_sources := st.store.data_sources ++ st.pending }
    pending := []
    events := st.events ++ [Event.commit (st.pending.map DataSource.id)] }

/-- `import_documents_from_datasource.delay(id)`: fire-and-forget task
dispatch. `dispatchFails` models the dispatch call raising; in that case
nothing is enqueued and the error propagates. -/
def import_documents_from_datasource_delay (data_source_id : Nat) (dispatchFails : Bool)
    (st : SessionState) : Except Nat Unit × SessionState :=
  if dispatchFails then (Except.error 500, st)
  else
    (Except.ok (),
      { st with
          events :=
            st.events ++ [Event.dispatch "import_documents_from_datasource" data_source_id] })

/-- Request body of `POST /admin/datasources`. -/
structure DataSourceCreate where
  name : String
  description : String
  data_source_type : DataSourceType
  config : Config
  build_kg_index : Bool := false
deriving DecidableEq, Repr

/-- `create_datasource`: build the row from the request and the caller's
id, add and commit it, then dispatch the import job. `genId` and
`genCreatedAt` stand for the values the database generates at flush time
(obtained in the source via `session.refresh`). -/
def create_datasource (user : User) (request : DataSourceCreate)
    (genId genCreatedAt : Nat) (dispatchFails : Bool) (st : SessionState) :
    Except Nat DataSource × SessionState :=
  let data_source : DataSource :=
    { id := genId
      name := request.name
      description := request.description
      data_source_type := request.data_source_type
      config := request.config
      build_kg_index := request.build_kg_index
      user_id := user.id
      created_at := genCreatedAt }
  let st1 := sessionAdd data_source st
  let st2 := sessionCommit st1
  match import_documents_from_datasource_delay data_source.id dispatchFails st2 with
  | (Except.error e, st3) => (Except.error e, st3)
  | (Except.ok _, st3) => (Except.ok data_source, st3)

/-- The row `create_datasource` builds from the request and the caller,
with the database-generated `id` and `created_at`. -/
def newDataSource (user : User) (request : DataSourceCreate)
    (genId genCreatedAt : Nat) : DataSource :=
  { id := genId
    name := request.name
    description := request.description
    data_source_type := request.data_source_type
    config := request.config
    build_kg_index := request.build_kg_index
    user_id := user.id
    created_at := genCreatedAt }

/-- Pagination parameters (`fastapi_pagination.Params`): 1-based page
number and page size. -/
structure Params where
  page : Nat
  size : Nat
deriving DecidableEq, Repr

/-- A page of results (`fastapi_pagination.Page`). -/
structure Page (α : Type) where
  items : List α
  total : Nat
  page : Nat
  size : Nat
deriving DecidableEq, Repr

/-- The fixed ordering of the list endpoint:
`DataSource.created_at.desc()`. -/
def createdAtDesc (a b : DataSource) : Prop :=
  b.created_at ≤ a.created_at

instance : DecidableRel createdAtDesc :=
  fun a b => Nat.decLe b.created_at a.created_at

instance : IsTotal DataSource createdAtDesc :=
  ⟨fun a b => Nat.le_total b.created_at a.created_at⟩

instance : IsTrans DataSource createdAtDesc :=
  ⟨fun _ _ _ h1 h2 => Nat.le_trans h2 h1⟩

/-- `paginate(session, query, params)`: one page of an ordered result,
`OFFSET (page-1)*size LIMIT size`. -/
def paginate (l : List DataSource) (params : Params) : Page DataSource :=
  { items := (l.drop ((params.page - 1) * params.size)).take params.size
    total := l.length
    page := params.page
    size := params.size }

/-- `list_datasources`: all DataSources ordered by `created_at`
descending, one page returned. -/
def list_datasources (params : Params) (st : SessionState) :
    Page DataSource × SessionState :=
  (paginate (List.insertionSort createdAtDesc st.store.data_sources) params, st)

/-- `get_datasource`: point lookup, 404 when absent. -/
def get_datasource (data_source_id : Nat) (st : SessionState) :
    Except Nat DataSource × SessionState :=
  match findDataSource st.store data_source_id with
  | none => (Except.error 404, st)
  | some data_source => (Except.ok data_source, st)

/-- The SQL join condition `Chunk.document.has(Document.data_source_id ==
data_source_id)`: the chunk's parent document belongs to the data
source. -/
def chunkInDataSource (store : Store) (data_source_id : Nat) (chunk : Chunk) : Bool :=
  store.documents.any (fun doc => doc.id == chunk.document_id && doc.data_source_id == data_source_id)

/-- The grouped count `select(status, count).group_by(status).order_by(status)`
followed by the dict comprehension: one `(status, count)` pair per status
present in `statuses`, in ascending status order. -/
def statusCounts (statuses : List Nat) : List (Nat × Nat) :=
  (List.insertionSort (fun a b => a ≤ b) statuses.dedup).map (fun s => (s, statuses.count s))

/-- The overview payload returned by `get_datasource_overview`. -/
structure Overview where
  documents_total : Nat
  chunks_total : Nat
  kg_index : List (Nat × Nat)
  vector_index : List (Nat × Nat)
deriving DecidableEq, Repr

/-- `get_datasource_overview`: 404 when absent, otherwise document and
chunk counts plus the per-status grouped counts (the chunk one only when
`build_kg_index` is set). -/
def get_datasource_overview (data_source_id : Nat) (st : SessionState) :
    Except Nat Overview × SessionState :=
  match findDataSource st.store data_source_id with
  | none => (Except.error 404, st)
  | some data_source =>
    let documents_count :=
      st.store.documents.countP (fun doc => doc.data_source_id == data_source_id)
    let chunks_count := st.store.chunks.countP (chunkInDataSource st.store data_source_id)
    let vector_index_status :=
      statusCounts
        ((st.store.documents.filter (fun doc => doc.data_source_id == data_source_id)).map
          Document.index_status)
    let kg_index_status :=
      if data_source.build_kg_index then
        statusCounts
          ((st.store.chunks.filter (chunkInDataSource st.store data_source_id)).map
            Chunk.index_status)
      else []
    (Except.ok
      { documents_total := documents_count
        chunks_total := chunks_count
        kg_index := kg_index_status
        vector_index := vector_index_status }, st)

/-- Number of pages the paginator produces for `total` rows at page size
`size` (ceiling division). -/
def numPages (total size : Nat) : Nat :=
  (total + size - 1) / size

/-- Concatenation of the item lists of every page of `list_datasources`,
in page order. -/
def allPageItems (store : Store) (size : Nat) : List DataSource :=
  (List.range (numPages store.data_sources.length size)).flatMap
    (fun i => (list_datasources { page := i + 1, size := size } ⟨store, [], []⟩).1.items)

/-! Concrete fixtures used by the witnesses. -/

/-- Fixture: a data source with the knowledge-graph index enabled. -/
def dsA : DataSource :=
  { id := 1, name := "a", description := "first", data_source_type := DataSourceType.file_upload
    config := Config.arr [], build_kg_index := true, user_id := 7, created_at := 10 }

/-- Fixture: a data source with the knowledge-graph index disabled and no
documents. -/
def dsB : DataSource :=
  { id := 2, name := "b", description := "second", data_source_type := DataSourceType.web_crawl
    config := Config.obj [], build_kg_index := false, user_id := 7, created_at := 5 }

/-- Fixture store: three documents under data source 1 with statuses
`[2, 2, 3]`, two chunks under its documents. -/
def sampleStore : Store :=
  { data_sources := [dsA, dsB]
    documents := [⟨1, 1, 2⟩, ⟨2, 1, 2⟩, ⟨3, 1, 3⟩]
    chunks := [⟨1, 1, 1⟩, ⟨2, 3, 1⟩] }

/-- Fixture: the calling superuser. -/
def adminUser : User := { id := 7, is_superuser := true }

/-- Fixture: a create request. -/
def sampleRequest : DataSourceCreate :=
  { name := "c", description := "third", data_source_type := DataSourceType.cloud_storage
    config := Config.arr ["x"], build_kg_index := true }

/-! Helper lemmas. -/

/-- A pair is listed by `statusCounts` exactly when its status occurs and
its count is the number of occurrences. -/
theorem statusCounts_mem_iff (l : List Nat) (s c : Nat) :
    (s, c) ∈ statusCounts l ↔ s ∈ l ∧ c = l.count s := by
  unfold statusCounts
  constructor
  · intro h
    rcases List.mem_map.mp h with ⟨x, hx, hpair⟩
    have hxs : x = s := congrArg Prod.fst hpair
    subst hxs
    have hc : l.count x = c := congrArg Prod.snd hpair
    have hmem : x ∈ l.dedup := ((List.perm_insertionSort _ _).mem_iff).mp hx
    exact ⟨List.mem_dedup.mp hmem, hc.symm⟩
  · rintro ⟨hs, rfl⟩
    exact List.mem_map.mpr
      ⟨s, ((List.perm_insertionSort _ _).mem_iff).mpr (List.mem_dedup.mpr hs), rfl⟩

/-- Deduplicating a list does not change the finset of its elements. -/
theorem dedup_toFinset (l : List Nat) : l.dedup.toFinset = l.toFinset := by
  ext a
  simp [List.mem_toFinset, List.mem_dedup]

/-- The counts listed by `statusCounts` sum to the length of the input:
the groups partition the rows being counted. -/
theorem statusCounts_sum_eq_length (l : List Nat) :
    ((statusCounts l).map Prod.snd).sum = l.length := by
  unfold statusCounts
  rw [List.map_map]
  have h1 :
      ((List.insertionSort (fun a b => a ≤ b) l.dedup).map
          (Prod.snd ∘ fun s => (s, l.count s))).sum
        = (l.dedup.map (Prod.snd ∘ fun s => (s, l.count s))).sum :=
    ((List.perm_insertionSort _ _).map _).sum_eq
  rw [h1]
  have h2 : (Prod.snd ∘ fun s : Nat => (s, l.count s)) = fun s => l.count s := rfl
  rw [h2, ← List.sum_toFinset _ (List.nodup_dedup l), dedup_toFinset]
  exact List.sum_toFinset_count_eq_length l

/-- Unfolding of the overview handler on a found data source. -/
theorem overview_run_found (store : Store) (pend : List DataSource) (evs : List Event)
    (dsId : Nat) (ds : DataSource)
    (hfind : findDataSource store dsId = some ds) :
    get_datasource_overview dsId ⟨store, pend, evs⟩ =
      (Except.ok
        { documents_total := store.documents.countP (fun doc => doc.data_source_id == dsId)
          chunks_total := store.chunks.countP (chunkInDataSource store dsId)
          kg_index :=
            if ds.build_kg_index then
              statusCounts
                ((store.chunks.filter (chunkInDataSource store dsId)).map
                  Chunk.index_status)
            else []
          vector_index :=
            statusCounts
              ((store.documents.filter (fun doc => doc.data_source_id == dsId)).map
                Document.index_status) }, ⟨store, pend, evs⟩) := by
  unfold get_datasource_overview
  rw [show (⟨store, pend, evs⟩ : SessionState).store = store from rfl, hfind]

/-- Existence of a matching row yields a successful primary-key lookup. -/
theorem findDataSource_isSome (store : Store) (dsId : Nat)
    (hexists : ∃ ds ∈ store.data_sources, ds.id = dsId) :
    ∃ ds, findDataSource store dsId = some ds := by
  rcases hexists with ⟨ds, hmem, hid⟩
  have : (store.data_sources.find? (fun x => x.id == dsId)).isSome := by
    rw [List.find?_isSome]
    exact ⟨ds, hmem, by simp [hid]⟩
  rcases Option.isSome_iff_exists.mp this with ⟨found, hfound⟩
  exact ⟨found, hfound⟩

/-- The page count covers every row: `numPages n size * size ≥ n`. -/
theorem le_numPages_mul (len size : Nat) (h : 0 < size) :
    len ≤ numPages len size * size := by
  rcases Nat.eq_zero_or_pos len with h0 | h0
  · subst h0; exact Nat.zero_le _
  · have hq : numPages len size = (len - 1) / size + 1 := by
      unfold numPages
      have harith : len + size - 1 = (len - 1) + size := by omega
      rw [harith, Nat.add_div_right _ h]
    rw [hq]
    have h2 : len - 1 < ((len - 1) / size + 1) * size :=
      (Nat.div_lt_iff_lt_mul h).mp (Nat.lt_succ_self _)
    exact Nat.le_of_pred_lt h2

/-- Concatenating the first `n` pages of size `size` gives the first
`n * size` rows. -/
theorem range_flatMap_take_drop {α : Type} (size : Nat) (l : List α) :
    ∀ n : Nat,
      (List.range n).flatMap (fun i => (l.drop (i * size)).take size) = l.take (n * size) := by
  intro n
  induction n with
  | zero => simp
  | succ n ih =>
    rw [List.range_succ, List.flatMap_append, ih]
    simp only [List.flatMap_cons, List.flatMap_nil, List.append_nil]
    rw [Nat.succ_mul, List.take_add]

/-! Claim theorems. -/

/-- C1: for every existing data source id, the overview returns
`documents.total` equal to the number of Documents whose `data_source_id`
matches, `chunks.total` equal to the number of Chunks whose parent
Document belongs to the data source (joined through Document), and
`vector_index` equal to the mapping from each `index_status` present
among those Documents to its per-status count, with zero-count statuses
absent. -/
theorem overview_totals_and_vector_index (store : Store) (dsId : Nat)
    (hexists : ∃ ds ∈ store.data_sources, ds.id = dsId) :
    ∃ ov : Overview,
      (get_datasource_overview dsId ⟨store, [], []⟩).1 = Except.ok ov ∧
      ov.documents_total =
        (store.documents.filter (fun doc => doc.data_source_id == dsId)).length ∧
      ov.chunks_total = (store.chunks.filter (chunkInDataSource store dsId)).length ∧
      (∀ ch ∈ store.chunks,
        chunkInDataSource store dsId ch = true ↔
          ∃ doc ∈ store.documents, doc.id = ch.document_id ∧ doc.data_source_id = dsId) ∧
      (∀ s cnt, (s, cnt) ∈ ov.vector_index ↔
        (s ∈ (store.documents.filter (fun doc => doc.data_source_id == dsId)).map
            Document.index_status ∧
         cnt = ((store.documents.filter (fun doc => doc.data_source_id == dsId)).map
            Document.index_status).count s)) ∧
      (∀ s, (s, 0) ∉ ov.vector_index) := by
  rcases findDataSource_isSome store dsId hexists with ⟨ds, hfind⟩
  have hrun := overview_run_found store [] [] dsId ds hfind
  refine ⟨_, by rw [hrun], ?_, ?_, ?_, ?_, ?_⟩
  · exact List.countP_eq_length_filter _ _
  · exact List.countP_eq_length_filter _ _
  · intro ch _
    unfold chunkInDataSource
    simp [List.any_eq_true]
  · intro s cnt
    exact statusCounts_mem_iff _ s cnt
  · intro s h
    have h2 := (statusCounts_mem_iff _ s 0).mp h
    have h3 := List.count_pos_iff.mpr h2.1
    omega

/-- C1 witness: the theorem applied to the sample store at data source 1. -/
theorem overview_totals_and_vector_index_witness :
    (∃ ds ∈ sampleStore.data_sources, ds.id = 1) ∧
    (∃ ov : Overview,
      (get_datasource_overview 1 ⟨sampleStore, [], []⟩).1 = Except.ok ov ∧
      ov.documents_total =
        (sampleStore.documents.filter (fun doc => doc.data_source_id == 1)).length ∧
      ov.chunks_total =
        (sampleStore.chunks.filter (chunkInDataSource sampleStore 1)).length ∧
      (∀ ch ∈ sampleStore.chunks,
        chunkInDataSource sampleStore 1 ch = true ↔
          ∃ doc ∈ sampleStore.documents, doc.id = ch.document_id ∧ doc.data_source_id = 1) ∧
      (∀ s cnt, (s, cnt) ∈ ov.vector_index ↔
        (s ∈ (sampleStore.documents.filter (fun doc => doc.data_source_id == 1)).map
            Document.index_status ∧
         cnt = ((sampleStore.documents.filter (fun doc => doc.data_source_id == 1)).map
            Document.index_status).count s)) ∧
      (∀ s, (s, 0) ∉ ov.vector_index)) :=
  ⟨by decide, overview_totals_and_vector_index sampleStore 1 (by decide)⟩

/-- C2: for every existing data source, `kg_index` is empty whenever
`build_kg_index` is false regardless of the chunk rows, and when
`build_kg_index` is true it is the mapping from each chunk `index_status`
(over chunks joined through the data source's documents) to its count. -/
theorem overview_kg_index_spec (store : Store) (dsId : Nat) (ds : DataSource)
    (hfind : findDataSource store dsId = some ds) :
    ∃ ov : Overview,
      (get_datasource_overview dsId ⟨store, [], []⟩).1 = Except.ok ov ∧
      (ds.build_kg_index = false → ov.kg_index = []) ∧
      (ds.build_kg_index = true →
        ∀ s cnt, (s, cnt) ∈ ov.kg_index ↔
          (s ∈ (store.chunks.filter (chunkInDataSource store dsId)).map Chunk.index_status ∧
           cnt = ((store.chunks.filter (chunkInDataSource store dsId)).map
              Chunk.index_status).count s)) := by
  have hrun := overview_run_found store [] [] dsId ds hfind
  refine ⟨_, by rw [hrun], ?_, ?_⟩
  · intro hfalse
    simp [hfalse]
  · intro htrue s cnt
    simp only [htrue, if_true]
    exact statusCounts_mem_iff _ s cnt

/-- C2 witness: the theorem applied to the sample store at data source 1
(which has `build_kg_index = true`). -/
theorem overview_kg_index_spec_witness :
    findDataSource sampleStore 1 = some dsA ∧
    (∃ ov : Overview,
      (get_datasource_overview 1 ⟨sampleStore, [], []⟩).1 = Except.ok ov ∧
      (dsA.build_kg_index = false → ov.kg_index = []) ∧
      (dsA.build_kg_index = true →
        ∀ s cnt, (s, cnt) ∈ ov.kg_index ↔
          (s ∈ (sampleStore.chunks.filter (chunkInDataSource sampleStore 1)).map
              Chunk.index_status ∧
           cnt = ((sampleStore.chunks.filter (chunkInDataSource sampleStore 1)).map
              Chunk.index_status).count s))) :=
  ⟨rfl, overview_kg_index_spec sampleStore 1 dsA rfl⟩

/-- C7: for every existing data source with zero associated Documents the
overview is exactly zero totals and two empty mappings, the `kg_index`
one even when `build_kg_index` is true. -/
theorem overview_zero_documents (store : Store) (dsId : Nat) (ds : DataSource)
    (hfind : findDataSource store dsId = some ds)
    (hnodocs : ∀ doc ∈ store.documents, doc.data_source_id ≠ dsId) :
    (get_datasource_overview dsId ⟨store, [], []⟩).1 =
      Except.ok
        { documents_total := 0, chunks_total := 0, kg_index := [], vector_index := [] } := by
  have hrun := overview_run_found store [] [] dsId ds hfind
  have hdocfilter : store.documents.filter (fun doc => doc.data_source_id == dsId) = [] := by
    rw [List.filter_eq_nil_iff]
    intro doc hmem
    simpa using hnodocs doc hmem
  have hchunkP : ∀ ch ∈ store.chunks, chunkInDataSource store dsId ch = false := by
    intro ch _
    unfold chunkInDataSource
    rw [List.any_eq_false]
    intro doc hmem
    simp [hnodocs doc hmem]
  have hchunkfilter : store.chunks.filter (chunkInDataSource store dsId) = [] := by
    rw [List.filter_eq_nil_iff]
    intro ch hmem
    simp [hchunkP ch hmem]
  rw [hrun]
  have hdoccount : store.documents.countP (fun doc => doc.data_source_id == dsId) = 0 := by
    rw [List.countP_eq_length_filter, hdocfilter]
    rfl
  have hchunkcount : store.chunks.countP (chunkInDataSource store dsId) = 0 := by
    rw [List.countP_eq_length_filter, hchunkfilter]
    rfl
  simp only [hdoccount, hchunkcount, hdocfilter, hchunkfilter]
  cases ds.build_kg_index <;> rfl

/-- C7 witness: the theorem applied at data source 2, which exists in the
sample store and has no documents. -/
theorem overview_zero_documents_witness :
    findDataSource sampleStore 2 = some dsB ∧
    (∀ doc ∈ sampleStore.documents, doc.data_source_id ≠ 2) ∧
    (get_datasource_overview 2 ⟨sampleStore, [], []⟩).1 =
      Except.ok
        { documents_total := 0, chunks_total := 0, kg_index := [], vector_index := [] } :=
  ⟨rfl, by decide, overview_zero_documents sampleStore 2 dsB rfl (by decide)⟩

/-- C9: in every overview response the counts in `vector_index` sum to
`documents.total`, and when `build_kg_index` is true the counts in
`kg_index` sum to `chunks.total`: each grouped count partitions exactly
the rows counted by the corresponding total. -/
theorem overview_group_sums (store : Store) (dsId : Nat) (ds : DataSource)
    (hfind : findDataSource store dsId = some ds) :
    ∃ ov : Overview,
      (get_datasource_overview dsId ⟨store, [], []⟩).1 = Except.ok ov ∧
      (ov.vector_index.map Prod.snd).sum = ov.documents_total ∧
      (ds.build_kg_index = true → (ov.kg_index.map Prod.snd).sum = ov.chunks_total) := by
  have hrun := overview_run_found store [] [] dsId ds hfind
  refine ⟨_, by rw [hrun], ?_, ?_⟩
  · exact (statusCounts_sum_eq_length _).trans
      (by rw [List.length_map, List.countP_eq_length_filter])
  · intro htrue
    simp only [htrue, if_true]
    exact (statusCounts_sum_eq_length _).trans
      (by rw [List.length_map, List.countP_eq_length_filter])

/-- C9 witness: the theorem applied to the sample store at data source 1. -/
theorem overview_group_sums_witness :
    findDataSource sampleStore 1 = some dsA ∧
    (∃ ov : Overview,
      (get_datasource_overview 1 ⟨sampleStore, [], []⟩).1 = Except.ok ov ∧
      (ov.vector_index.map Prod.snd).sum = ov.documents_total ∧
      (dsA.build_kg_index = true → (ov.kg_index.map Prod.snd).sum = ov.chunks_total)) :=
  ⟨rfl, overview_group_sums sampleStore 1 dsA rfl⟩

/-- C5: `get_datasource` and `get_datasource_overview` fail with a 404
exactly when no DataSource row has the requested id; when the row exists
(primary keys being unique), `get_datasource` returns the stored entity
itself. -/
theorem get_datasource_not_found_iff (store : Store) (dsId : Nat)
    (hids : (store.data_sources.map DataSource.id).Nodup) :
    ((get_datasource dsId ⟨store, [], []⟩).1 = Except.error 404 ↔
      ¬ ∃ ds ∈ store.data_sources, ds.id = dsId) ∧
    ((get_datasource_overview dsId ⟨store, [], []⟩).1 = Except.error 404 ↔
      ¬ ∃ ds ∈ store.data_sources, ds.id = dsId) ∧
    (∀ ds ∈ store.data_sources, ds.id = dsId →
      (get_datasource dsId ⟨store, [], []⟩).1 = Except.ok ds) := by
  cases hf : findDataSource store dsId with
  | none =>
    have hnone : ∀ ds ∈ store.data_sources, ¬ ds.id = dsId := by
      intro ds hmem
      have := List.find?_eq_none.mp hf ds hmem
      simpa using this
    refine ⟨?_, ?_, ?_⟩
    · simp only [get_datasource, hf]
      simp only [true_iff]
      rintro ⟨ds, hmem, hid⟩
      exact hnone ds hmem hid
    · simp only [get_datasource_overview, hf]
      simp only [true_iff]
      rintro ⟨ds, hmem, hid⟩
      exact hnone ds hmem hid
    · intro ds hmem hid
      exact absurd hid (hnone ds hmem)
  | some found =>
    have hmemf : found ∈ store.data_sources := List.mem_of_find?_eq_some hf
    have hidf : found.id = dsId := by
      have := List.find?_some hf
      simpa using this
    refine ⟨?_, ?_, ?_⟩
    · simp only [get_datasource, hf]
      simp only [reduceCtorEq, false_iff, not_not]
      exact ⟨found, hmemf, hidf⟩
    · rw [overview_run_found store [] [] dsId found hf]
      simp only [reduceCtorEq, false_iff, not_not]
      exact ⟨found, hmemf, hidf⟩
    · intro ds hmem hid
      have heq : found = ds :=
        List.inj_on_of_nodup_map hids hmemf hmem (hidf.trans hid.symm)
      simp only [get_datasource, hf, heq]

/-- C5 witness: the theorem applied to the sample store. -/
theorem get_datasource_not_found_iff_witness :
    (sampleStore.data_sources.map DataSource.id).Nodup ∧
    (((get_datasource 1 ⟨sampleStore, [], []⟩).1 = Except.error 404 ↔
      ¬ ∃ ds ∈ sampleStore.data_sources, ds.id = 1) ∧
    ((get_datasource_overview 1 ⟨sampleStore, [], []⟩).1 = Except.error 404 ↔
      ¬ ∃ ds ∈ sampleStore.data_sources, ds.id = 1) ∧
    (∀ ds ∈ sampleStore.data_sources, ds.id = 1 →
      (get_datasource 1 ⟨sampleStore, [], []⟩).1 = Except.ok ds)) :=
  ⟨by decide, get_datasource_not_found_iff sampleStore 1 (by decide)⟩

/-- C10: the three read endpoints perform no writes: the session state,
and in particular the DataSource, Document and Chunk contents of the
store, is identical before and after each handler, whether it succeeds or
fails with not-found. -/
theorem read_endpoints_preserve_state (st : SessionState) (params : Params) (dsId : Nat) :
    (list_datasources params st).2 = st ∧
    (get_datasource dsId st).2 = st ∧
    (get_datasource_overview dsId st).2 = st := by
  refine ⟨rfl, ?_, ?_⟩
  · unfold get_datasource
    cases findDataSource st.store dsId <;> rfl
  · unfold get_datasource_overview
    cases findDataSource st.store dsId <;> rfl

/-- C3: a valid create request by an authenticated superuser persists
exactly one new DataSource row carrying the caller's id and the request
fields, dispatches exactly one import job carrying the new entity's id,
and returns the persisted entity with its generated `id` and
`created_at`. -/
theorem create_datasource_creates_and_dispatches (store : Store) (user : User)
    (request : DataSourceCreate) (genId genCreatedAt : Nat)
    (_hsu : user.is_superuser = true) :
    ∃ (ds : DataSource) (st' : SessionState),
      create_datasource user request genId genCreatedAt false ⟨store, [], []⟩ =
        (Except.ok ds, st') ∧
      st'.store.data_sources = store.data_sources ++ [ds] ∧
      st'.store.documents = store.documents ∧
      st'.store.chunks = store.chunks ∧
      ds.name = request.name ∧
      ds.description = request.description ∧
      ds.data_source_type = request.data_source_type ∧
      ds.config = request.config ∧
      ds.build_kg_index = request.build_kg_index ∧
      ds.user_id = user.id ∧
      ds.id = genId ∧
      ds.created_at = genCreatedAt ∧
      st'.events.filter Event.isDispatch =
        [Event.dispatch "import_documents_from_datasource" ds.id] :=
  ⟨_, _, rfl, rfl, rfl, rfl, rfl, rfl, rfl, rfl, rfl, rfl, rfl, rfl, rfl⟩

/-- C3 witness: the theorem applied to the sample store, superuser and
request. -/
theorem create_datasource_creates_and_dispatches_witness :
    adminUser.is_superuser = true ∧
    (∃ (ds : DataSource) (st' : SessionState),
      create_datasource adminUser sampleRequest 42 100 false ⟨sampleStore, [], []⟩ =
        (Except.ok ds, st') ∧
      st'.store.data_sources = sampleStore.data_sources ++ [ds] ∧
      st'.store.documents = sampleStore.documents ∧
      st'.store.chunks = sampleStore.chunks ∧
      ds.name = sampleRequest.name ∧
      ds.description = sampleRequest.description ∧
      ds.data_source_type = sampleRequest.data_source_type ∧
      ds.config = sampleRequest.config ∧
      ds.build_kg_index = sampleRequest.build_kg_index ∧
      ds.user_id = adminUser.id ∧
      ds.id = 42 ∧
      ds.created_at = 100 ∧
      st'.events.filter Event.isDispatch =
        [Event.dispatch "import_documents_from_datasource" ds.id]) :=
  ⟨rfl, create_datasource_creates_and_dispatches sampleStore adminUser sampleRequest 42 100 rfl⟩

/-- C4: in every execution of `create_datasource` the commit of the new
row is recorded strictly before any dispatch, every dispatched id was
part of an earlier commit, and every dispatched id can be looked up in
the resulting store; when the dispatch succeeds, a commit of the new id
precedes the dispatch carrying it. -/
theorem create_datasource_commit_precedes_dispatch (store : Store) (user : User)
    (request : DataSourceCreate) (genId genCreatedAt : Nat) (dispatchFails : Bool)
    (_hsu : user.is_superuser = true) :
    ∃ (res : Except Nat DataSource) (st' : SessionState),
      create_datasource user request genId genCreatedAt dispatchFails ⟨store, [], []⟩ =
        (res, st') ∧
      (∀ j jobName d, st'.events.get? j = some (Event.dispatch jobName d) →
        ∃ i ids, i < j ∧ st'.events.get? i = some (Event.commit ids) ∧ d ∈ ids) ∧
      (∀ j jobName d, st'.events.get? j = some (Event.dispatch jobName d) →
        ∃ ds' ∈ st'.store.data_sources, ds'.id = d) ∧
      (dispatchFails = false →
        ∃ i j ids, i < j ∧ st'.events.get? i = some (Event.commit ids) ∧ genId ∈ ids ∧
          st'.events.get? j =
            some (Event.dispatch "import_documents_from_datasource" genId)) := by
  cases dispatchFails with
  | false =>
    refine ⟨Except.ok (newDataSource user request genId genCreatedAt),
      ⟨{ store with
            data_sources :=
              store.data_sources ++ [newDataSource user request genId genCreatedAt] }, [],
        [Event.commit [genId],
          Event.dispatch "import_documents_from_datasource" genId]⟩,
      rfl, ?_, ?_, ?_⟩
    · intro j jobName d h
      match j with
      | 0 => simp at h
      | 1 =>
        have hd : genId = d := by
          have h2 : Event.dispatch "import_documents_from_datasource" genId =
              Event.dispatch jobName d := by simpa using h
          exact ((Event.dispatch.injEq _ _ _ _).mp h2).2
        exact ⟨0, [genId], Nat.zero_lt_one, rfl, by simp [← hd]⟩
      | Nat.succ (Nat.succ n) => simp at h
    · intro j jobName d h
      match j with
      | 0 => simp at h
      | 1 =>
        have hd : genId = d := by
          have h2 : Event.dispatch "import_documents_from_datasource" genId =
              Event.dispatch jobName d := by simpa using h
          exact ((Event.dispatch.injEq _ _ _ _).mp h2).2
        exact ⟨newDataSource user request genId genCreatedAt, by simp, hd⟩
      | Nat.succ (Nat.succ n) => simp at h
    · intro _
      exact ⟨0, 1, [genId], Nat.zero_lt_one, rfl, by simp, rfl⟩
  | true =>
    refine ⟨Except.error 500,
      ⟨{ store with
            data_sources :=
              store.data_sources ++ [newDataSource user request genId genCreatedAt] }, [],
        [Event.commit [genId]]⟩,
      rfl, ?_, ?_, ?_⟩
    · intro j jobName d h
      match j with
      | 0 => simp at h
      | Nat.succ n => simp at h
    · intro j jobName d h
      match j with
      | 0 => simp at h
      | Nat.succ n => simp at h
    · intro habs
      exact Bool.noConfusion habs

/-- C4 witness: the theorem applied to the sample store, superuser and
request with a succeeding dispatch. -/
theorem create_datasource_commit_precedes_dispatch_witness :
    adminUser.is_superuser = true ∧
    (∃ (res : Except Nat DataSource) (st' : SessionState),
      create_datasource adminUser sampleRequest 42 100 false ⟨sampleStore, [], []⟩ =
        (res, st') ∧
      (∀ j jobName d, st'.events.get? j = some (Event.dispatch jobName d) →
        ∃ i ids, i < j ∧ st'.events.get? i = some (Event.commit ids) ∧ d ∈ ids) ∧
      (∀ j jobName d, st'.events.get? j = some (Event.dispatch jobName d) →
        ∃ ds' ∈ st'.store.data_sources, ds'.id = d) ∧
      (false = false →
        ∃ i j ids, i < j ∧ st'.events.get? i = some (Event.commit ids) ∧ 42 ∈ ids ∧
          st'.events.get? j =
            some (Event.dispatch "import_documents_from_datasource" 42))) :=
  ⟨rfl,
    create_datasource_commit_precedes_dispatch sampleStore adminUser sampleRequest 42 100
      false rfl⟩

/-- C8: when the job dispatch raises after the commit, the new DataSource
row remains stored (no compensating rollback), nothing is dispatched, and
the failure propagates to the caller as a server error. -/
theorem create_datasource_dispatch_failure_keeps_row (store : Store) (user : User)
    (request : DataSourceCreate) (genId genCreatedAt : Nat)
    (_hsu : user.is_superuser = true) :
    ∃ (ds : DataSource) (st' : SessionState),
      create_datasource user request genId genCreatedAt true ⟨store, [], []⟩ =
        (Except.error 500, st') ∧
      st'.store.data_sources = store.data_sources ++ [ds] ∧
      ds.id = genId ∧
      ds.user_id = user.id ∧
      ds.name = request.name ∧
      (∀ jobName d, Event.dispatch jobName d ∉ st'.events) := by
  refine ⟨newDataSource user request genId genCreatedAt,
    ⟨{ store with
          data_sources :=
            store.data_sources ++ [newDataSource user request genId genCreatedAt] }, [],
      [Event.commit [genId]]⟩,
    rfl, rfl, rfl, rfl, rfl, ?_⟩
  intro jobName d h
  simp at h

/-- C8 witness: the theorem applied to the sample store, superuser and
request. -/
theorem create_datasource_dispatch_failure_keeps_row_witness :
    adminUser.is_superuser = true ∧
    (∃ (ds : DataSource) (st' : SessionState),
      create_datasource adminUser sampleRequest 42 100 true ⟨sampleStore, [], []⟩ =
        (Except.error 500, st') ∧
      st'.store.data_sources = sampleStore.data_sources ++ [ds] ∧
      ds.id = 42 ∧
      ds.user_id = adminUser.id ∧
      ds.name = sampleRequest.name ∧
      (∀ jobName d, Event.dispatch jobName d ∉ st'.events)) :=
  ⟨rfl,
    create_datasource_dispatch_failure_keeps_row sampleStore adminUser sampleRequest 42 100
      rfl⟩

/-- C6: `list_datasources` draws its page from all DataSources ordered by
`created_at` descending; each page is ordered non-increasingly, and the
concatenation of all pages is ordered `created_at` non-increasing and is
a permutation of the stored set (no duplicates or omissions). -/
theorem list_datasources_ordered_and_complete (store : Store) (size : Nat)
    (hsize : 0 < size) :
    List.Perm (allPageItems store size) store.data_sources ∧
    List.Sorted createdAtDesc (allPageItems store size) ∧
    (∀ params : Params,
      List.Sorted createdAtDesc (list_datasources params ⟨store, [], []⟩).1.items) := by
  have hkey : allPageItems store size =
      List.insertionSort createdAtDesc store.data_sources := by
    unfold allPageItems list_datasources paginate
    simp only [Nat.add_sub_cancel]
    rw [range_flatMap_take_drop]
    apply List.take_of_length_le
    rw [(List.perm_insertionSort createdAtDesc store.data_sources).length_eq]
    exact le_numPages_mul _ _ hsize
  refine ⟨?_, ?_, ?_⟩
  · rw [hkey]
    exact List.perm_insertionSort createdAtDesc store.data_sources
  · rw [hkey]
    exact List.sorted_insertionSort createdAtDesc store.data_sources
  · intro params
    have hsorted := List.sorted_insertionSort createdAtDesc store.data_sources
    have hsub :
        List.Sublist (list_datasources params ⟨store, [], []⟩).1.items
          (List.insertionSort createdAtDesc store.data_sources) :=
      (List.take_sublist _ _).trans (List.drop_sublist _ _)
    exact List.Pairwise.sublist hsub hsorted

/-- C6 witness: the theorem applied to the sample store with page size 2. -/
theorem list_datasources_ordered_and_complete_witness :
    0 < 2 ∧
    (List.Perm (allPageItems sampleStore 2) sampleStore.data_sources ∧
    List.Sorted createdAtDesc (allPageItems sampleStore 2) ∧
    (∀ params : Params,
      List.Sorted createdAtDesc (list_datasources params ⟨sampleStore, [], []⟩).1.items)) :=
  ⟨by decide, list_datasources_ordered_and_complete sampleStore 2 (by decide)⟩

end DataSourceAdmin
